import Mathlib

/-!
Verification development for the simplyplural-cli daemon core
(`src/simplyplural/daemon.py` and `src/simplyplural/daemon_protocol.py`).

The Python code is shallowly embedded: JSON payloads become the inductive
type `JVal`, Python `dict`s become insertion-ordered association lists with
the Python update-in-place assignment semantics, and each method of
`WebSocketManager`, `DaemonState` and `UnixSocketServer` that the claims
touch becomes an executable Lean function.  Disk-cache writes are modelled
with an explicit success/failure outcome per operation, mirroring the
`try/except` blocks around each cache call.
-/

namespace SimplyPlural

/-- JSON-like dynamic values, as produced by `json.loads` and carried in
WebSocket payloads.  Numbers are modelled as integers (the fields the
daemon reads, `startTime` timestamps, are integral). -/
inductive JVal where
  | null : JVal
  | bool (b : Bool) : JVal
  | num (n : Int) : JVal
  | str (s : String) : JVal
  | arr (elems : List JVal) : JVal
  | obj (fields : List (String × JVal)) : JVal
  deriving Repr

mutual

/-- Decidable equality on `JVal` (derived by hand because of the nested
lists). -/
def JVal.decEq : (a b : JVal) → Decidable (a = b)
  | .null, .null => isTrue rfl
  | .bool a, .bool b =>
    match Bool.decEq a b with
    | isTrue h => isTrue (by rw [h])
    | isFalse h => isFalse (by intro hh; injection hh; contradiction)
  | .num a, .num b =>
    match Int.decEq a b with
    | isTrue h => isTrue (by rw [h])
    | isFalse h => isFalse (by intro hh; injection hh; contradiction)
  | .str a, .str b =>
    match String.decEq a b with
    | isTrue h => isTrue (by rw [h])
    | isFalse h => isFalse (by intro hh; injection hh; contradiction)
  | .arr a, .arr b =>
    match JVal.decEqList a b with
    | isTrue h => isTrue (by rw [h])
    | isFalse h => isFalse (by intro hh; injection hh; contradiction)
  | .obj a, .obj b =>
    match JVal.decEqFields a b with
    | isTrue h => isTrue (by rw [h])
    | isFalse h => isFalse (by intro hh; injection hh; contradiction)
  | .null, .bool _ | .null, .num _ | .null, .str _ | .null, .arr _
  | .null, .obj _ => isFalse (by intro hh; exact JVal.noConfusion hh)
  | .bool _, .null | .bool _, .num _ | .bool _, .str _ | .bool _, .arr _
  | .bool _, .obj _ => isFalse (by intro hh; exact JVal.noConfusion hh)
  | .num _, .null | .num _, .bool _ | .num _, .str _ | .num _, .arr _
  | .num _, .obj _ => isFalse (by intro hh; exact JVal.noConfusion hh)
  | .str _, .null | .str _, .bool _ | .str _, .num _ | .str _, .arr _
  | .str _, .obj _ => isFalse (by intro hh; exact JVal.noConfusion hh)
  | .arr _, .null | .arr _, .bool _ | .arr _, .num _ | .arr _, .str _
  | .arr _, .obj _ => isFalse (by intro hh; exact JVal.noConfusion hh)
  | .obj _, .null | .obj _, .bool _ | .obj _, .num _ | .obj _, .str _
  | .obj _, .arr _ => isFalse (by intro hh; exact JVal.noConfusion hh)

/-- Decidable equality on lists of `JVal`. -/
def JVal.decEqList : (a b : List JVal) → Decidable (a = b)
  | [], [] => isTrue rfl
  | [], _ :: _ => isFalse (by intro hh; exact List.noConfusion hh)
  | _ :: _, [] => isFalse (by intro hh; exact List.noConfusion hh)
  | a :: as, b :: bs =>
    match JVal.decEq a b, JVal.decEqList as bs with
    | isTrue h1, isTrue h2 => isTrue (by rw [h1, h2])
    | isFalse h1, _ => isFalse (by intro hh; injection hh; contradiction)
    | _, isFalse h2 => isFalse (by intro hh; injection hh; contradiction)

/-- Decidable equality on JSON object field lists. -/
def JVal.decEqFields : (a b : List (String × JVal)) → Decidable (a = b)
  | [], [] => isTrue rfl
  | [], _ :: _ => isFalse (by intro hh; exact List.noConfusion hh)
  | _ :: _, [] => isFalse (by intro hh; exact List.noConfusion hh)
  | (k1, v1) :: as, (k2, v2) :: bs =>
    match String.decEq k1 k2, JVal.decEq v1 v2, JVal.decEqFields as bs with
    | isTrue h0, isTrue h1, isTrue h2 => isTrue (by rw [h0, h1, h2])
    | isFalse h0, _, _ => isFalse (by
        intro hh
        injection hh with hp ht
        injection hp with hk hv
        contradiction)
    | _, isFalse h1, _ => isFalse (by
        intro hh
        injection hh with hp ht
        injection hp with hk hv
        contradiction)
    | _, _, isFalse h2 => isFalse (by intro hh; injection hh; contradiction)

end

instance : DecidableEq JVal := JVal.decEq

/-- Python truthiness of a JSON value: `None`, `False`, `0`, `""`, `[]`
and the empty dict are falsy, everything else truthy. -/
def truthy : JVal → Bool
  | .null => false
  | .bool b => b
  | .num n => n != 0
  | .str s => s != ""
  | .arr l => !l.isEmpty
  | .obj l => !l.isEmpty

/-- First-match lookup in an association list (the maps built below keep
keys unique, so this is Python `dict` lookup). -/
def dlook {α β : Type} [DecidableEq α] : List (α × β) → α → Option β
  | [], _ => none
  | p :: t, k => if p.1 = k then some p.2 else dlook t k

/-- Python `d[k] = v`: replace in place if the key is present (keeping its
position, as Python dicts do), otherwise append at the end. -/
def dset {α β : Type} [DecidableEq α] (m : List (α × β)) (k : α) (v : β) :
    List (α × β) :=
  if m.any (fun p => decide (p.1 = k)) then
    m.map (fun p => if p.1 = k then (k, v) else p)
  else m ++ [(k, v)]

/-- Python `del d[k]` (for the unique occurrence of `k`). -/
def ddel {α β : Type} [DecidableEq α] (m : List (α × β)) (k : α) :
    List (α × β) :=
  m.filter (fun p => decide (p.1 ≠ k))

/-- Python `d.get(k, default)` on a parsed JSON object. -/
def jgetD (fields : List (String × JVal)) (k : String) (d : JVal) : JVal :=
  (dlook fields k).getD d

/-- Python `v.get(k, default)` where `v` is expected to be a dict; on a
non-dict value Python would raise `AttributeError`, and the theorems below
carry well-formedness hypotheses restricting to the dict case wherever the
daemon performs such an access. -/
def vgetD (v : JVal) (k : String) (d : JVal) : JVal :=
  match v with
  | .obj fields => jgetD fields k d
  | _ => d

/-- Python substring containment `needle in hay`. -/
def strContains (hay needle : String) : Bool :=
  hay.data.tails.any (fun t => needle.data.isPrefixOf t)

/-! ## State Store (`DaemonState` in `daemon.py`) -/

/-- The Python interpretation of a value used as the sort key
`x.get("startTime", 0)`: integers and booleans (which are integers in
Python) are comparable; other value types would make `list.sort` raise
`TypeError` as soon as two of them are compared, so the theorems below
restrict to numeric keys via `wfContent`. -/
def asNum : JVal → Option Int
  | .num n => some n
  | .bool b => some (if b then 1 else 0)
  | _ => none

/-- The sort key the front-history recompute uses:
`lambda x: x.get("startTime", 0)`, as an integer (see `asNum`). -/
def keyInt (entry : JVal) : Int :=
  (asNum (vgetD entry "startTime" (JVal.num 0))).getD 0

/-- Descending comparison on `startTime` keys: the order `list.sort(key=...,
reverse=True)` establishes. -/
def keyGE (a b : JVal) : Prop := keyInt b ≤ keyInt a

instance : DecidableRel keyGE := fun a b =>
  inferInstanceAs (Decidable (keyInt b ≤ keyInt a))

instance : IsTotal JVal keyGE :=
  ⟨fun a b => le_total (keyInt b) (keyInt a)⟩

instance : IsTrans JVal keyGE :=
  ⟨fun _ _ _ hab hbc => le_trans hbc hab⟩

/-- Whether a JSON value is an object (a Python dict). -/
def isObj : JVal → Bool
  | .obj _ => true
  | _ => false

/-- Well-formedness of the content of a ledger entry: a JSON object whose
`startTime` (defaulted to `0`) is numeric.  On such contents the Python
code raises no exception while filtering and sorting. -/
def wfContent (v : JVal) : Bool :=
  isObj v && (asNum (vgetD v "startTime" (JVal.num 0))).isSome

/-- Rebuild the current-fronters list from the ledger, exactly as
`_handle_front_history_update` does: keep the values whose `live` field is
truthy (in ledger insertion order, i.e. `dict.values()` order), then sort
by `startTime` descending with the stable Python sort. -/
def computeFronters (front_history : List (JVal × JVal)) : List JVal :=
  List.insertionSort keyGE
    ((front_history.map Prod.snd).filter
      (fun entry => truthy (vgetD entry "live" (JVal.bool false))))

/-- The in-memory state of `DaemonState`.  `current_fronters = none` models
Python `None`; timestamps are integers supplied by the caller in place of
`time.time()`. -/
structure DaemonState where
  current_fronters : Option (List JVal)
  members : List (JVal × JVal)
  custom_fronts : List (JVal × JVal)
  front_history : List (JVal × JVal)
  last_update_times : List (String × Int)
  update_count : Nat
  start_time : Int
  deriving DecidableEq, Repr

/-- The state `DaemonState.__init__` constructs. -/
def initState (now : Int) : DaemonState :=
  { current_fronters := none
    members := []
    custom_fronts := []
    front_history := []
    last_update_times :=
      [("fronters", 0), ("members", 0), ("custom_fronts", 0),
       ("front_history", 0)]
    update_count := 0
    start_time := now }

/-- Contents of the disk-cache collaborator (`CacheManager`), as far as the
daemon writes it. -/
structure CacheStore where
  fronters : Option (List JVal)
  members : Option (List JVal)
  custom_fronts : Option (List JVal)
  memberEntries : List (String × JVal)
  customFrontEntries : List (String × JVal)
  deriving DecidableEq, Repr

/-- Per-operation success flags for the disk-cache writes a single
`handle_update` call can perform; `false` means the cache raised. -/
structure CacheOutcomes where
  oSetFronters : Bool
  oSetMember : Bool
  oSetMembers : Bool
  oSetCustomFront : Bool
  oSetCustomFronts : Bool
  oInvMember : Bool
  oInvCustomFront : Bool
  deriving DecidableEq, Repr

/-- All cache writes succeed. -/
def allOk : CacheOutcomes := ⟨true, true, true, true, true, true, true⟩

/-- Model of a `try: cache-write except: log` block: a failing write leaves
the cache unchanged and the failure is absorbed. -/
def tryW (ok : Bool) (c : CacheStore) (w : CacheStore → CacheStore) :
    CacheStore :=
  if ok then w c else c

/-- Embeds `DaemonState._handle_front_history_update`. -/
def handleFrontHistoryUpdate (s : DaemonState) (c : CacheStore)
    (o : CacheOutcomes) (op objId : String) (content : JVal) :
    DaemonState × CacheStore :=
  let fh :=
    if op = "delete" then
      if (dlook s.front_history (JVal.str objId)).isSome then
        ddel s.front_history (JVal.str objId)
      else s.front_history
    else dset s.front_history (JVal.str objId) content
  let live_fronts := computeFronters fh
  let s1 := { s with front_history := fh,
                     current_fronters := some live_fronts }
  (s1, tryW o.oSetFronters c (fun c => { c with fronters := some live_fronts }))

/-- Embeds `DaemonState._handle_member_update`. -/
def handleMemberUpdate (s : DaemonState) (c : CacheStore)
    (o : CacheOutcomes) (op objId : String) (content : JVal) :
    DaemonState × CacheStore :=
  let sc :=
    if op = "delete" then
      if (dlook s.members (JVal.str objId)).isSome then
        let s1 := { s with members := ddel s.members (JVal.str objId) }
        (s1, tryW o.oInvMember c
          (fun c => { c with memberEntries := ddel c.memberEntries objId }))
      else (s, c)
    else
      let s1 := { s with members := dset s.members (JVal.str objId) content }
      (s1, tryW o.oSetMember c
        (fun c => { c with memberEntries := dset c.memberEntries objId content }))
  (sc.1, tryW o.oSetMembers sc.2
    (fun c => { c with members := some (sc.1.members.map Prod.snd) }))

/-- Embeds `DaemonState._handle_custom_front_update`. -/
def handleCustomFrontUpdate (s : DaemonState) (c : CacheStore)
    (o : CacheOutcomes) (op objId : String) (content : JVal) :
    DaemonState × CacheStore :=
  let sc :=
    if op = "delete" then
      if (dlook s.custom_fronts (JVal.str objId)).isSome then
        let s1 := { s with custom_fronts := ddel s.custom_fronts (JVal.str objId) }
        (s1, tryW o.oInvCustomFront c
          (fun c => { c with customFrontEntries := ddel c.customFrontEntries objId }))
      else (s, c)
    else
      let s1 := { s with custom_fronts := dset s.custom_fronts (JVal.str objId) content }
      (s1, tryW o.oSetCustomFront c
        (fun c => { c with customFrontEntries := dset c.customFrontEntries objId content }))
  (sc.1, tryW o.oSetCustomFronts sc.2
    (fun c => { c with custom_fronts := some (sc.1.custom_fronts.map Prod.snd) }))

/-- The per-target timestamp key computed at the end of `handle_update`
from the target string via two `str.replace` calls. -/
def collectionKey (target : String) : String :=
  (target.replace "frontHistory" "front_history").replace
    "customFronts" "custom_fronts"

/-- Embeds `DaemonState.handle_update` (the `ApplyUpdate` operation):
increments the update counter, dispatches on the target collection, then
records a per-target last-update timestamp. -/
def handle_update (s : DaemonState) (c : CacheStore) (o : CacheOutcomes)
    (now : Int) (target op objId : String) (content : JVal) :
    DaemonState × CacheStore :=
  let s0 := { s with update_count := s.update_count + 1 }
  let sc :=
    if target = "frontHistory" then
      handleFrontHistoryUpdate s0 c o op objId content
    else if target = "members" then
      handleMemberUpdate s0 c o op objId content
    else if target = "customFronts" then
      handleCustomFrontUpdate s0 c o op objId content
    else (s0, c)
  let s1 := sc.1
  let s2 := { s1 with
    last_update_times := dset s1.last_update_times (collectionKey target) now }
  (s2, sc.2)

/-- Python `entry.get("id") or entry.get("_id")`. -/
def entryId (entry : JVal) : JVal :=
  let i := vgetD entry "id" JVal.null
  if truthy i then i else vgetD entry "_id" JVal.null

/-- One iteration of the `_seed_front_history` loop: an entry with a
truthy id is inserted into the ledger keyed by that id, storing the
value of its `content` field if present and the entry itself otherwise. -/
def seedStep (m : List (JVal × JVal)) (entry : JVal) : List (JVal × JVal) :=
  let eid := entryId entry
  if truthy eid then dset m eid (vgetD entry "content" entry) else m

/-- Embeds `DaemonState._seed_front_history`: run `seedStep` over the
seeded fronters, then set the `front_history` timestamp. -/
def seed_front_history (s : DaemonState) (fronters_data : List JVal)
    (now : Int) : DaemonState :=
  { s with front_history := fronters_data.foldl seedStep s.front_history,
           last_update_times := dset s.last_update_times "front_history" now }

/-- The dict comprehension over `m.get("id") or m.get("_id")` keys
used when seeding members and custom fronts. -/
def mkEntityMap (entities : List JVal) : List (JVal × JVal) :=
  entities.foldl (fun m e => dset m (entryId e) e) []

/-- Result of one call into an external collaborator (REST API method or
disk-cache read): a returned list or a raised exception. -/
inductive CollabResult where
  | ok (v : List JVal)
  | err
  deriving DecidableEq, Repr

/-- The REST seed collaborator as `initialize` consumes it. -/
structure ApiModel where
  fronters : CollabResult
  members : CollabResult
  custom_fronts : CollabResult
  deriving DecidableEq, Repr

/-- The disk-cache collaborator as `initialize` consumes it: stored
content, read results for the fallback path, and success flags for the
three seed-time writes (`false` means the write raises). -/
structure CacheDev where
  store : CacheStore
  readFronters : CollabResult
  readMembers : CollabResult
  readCustomFronts : CollabResult
  oSetFronters : Bool
  oSetMembers : Bool
  oSetCustomFronts : Bool
  deriving DecidableEq, Repr

/-- Custom-fronts step of the `initialize` API branch; the `Bool` in the
result records whether an exception escaped to the fallback handler. -/
def initApiCustomStep (s : DaemonState) (a : ApiModel)
    (cache : Option CacheDev) (now : Int) :
    DaemonState × Option CacheDev × Bool :=
  match a.custom_fronts with
  | .err => (s, cache, true)
  | .ok cfs =>
    if cfs.isEmpty then (s, cache, false)
    else
      let s := { s with
        custom_fronts := mkEntityMap cfs,
        last_update_times := dset s.last_update_times "custom_fronts" now }
      match cache with
      | some cd =>
        if cd.oSetCustomFronts then
          (s, some { cd with store := { cd.store with custom_fronts := some cfs } },
           false)
        else (s, some cd, true)
      | none => (s, none, false)

/-- Members step of the `initialize` API branch. -/
def initApiMembersStep (s : DaemonState) (a : ApiModel)
    (cache : Option CacheDev) (now : Int) :
    DaemonState × Option CacheDev × Bool :=
  match a.members with
  | .err => (s, cache, true)
  | .ok mems =>
    if mems.isEmpty then initApiCustomStep s a cache now
    else
      let s := { s with
        members := mkEntityMap mems,
        last_update_times := dset s.last_update_times "members" now }
      match cache with
      | some cd =>
        if cd.oSetMembers then
          initApiCustomStep s a
            (some { cd with store := { cd.store with members := some mems } }) now
        else (s, some cd, true)
      | none => initApiCustomStep s a none now

/-- Fronters step of the `initialize` API branch.  Note that the
`cache.set_fronters` call sits inside the same `try` block as the API
calls, so a failing cache write raises out to the fallback handler. -/
def initApiFrontersStep (s : DaemonState) (a : ApiModel)
    (cache : Option CacheDev) (now : Int) :
    DaemonState × Option CacheDev × Bool :=
  match a.fronters with
  | .err => (s, cache, true)
  | .ok fronters_data =>
    if fronters_data.isEmpty then initApiMembersStep s a cache now
    else
      let s := seed_front_history
        { s with current_fronters := some fronters_data,
                 last_update_times := dset s.last_update_times "fronters" now }
        fronters_data now
      match cache with
      | some cd =>
        if cd.oSetFronters then
          initApiMembersStep s a
            (some { cd with store := { cd.store with fronters := some fronters_data } })
            now
        else (s, some cd, true)
      | none => initApiMembersStep s a none now

/-- The cache-fallback path of `initialize` (also used when no API client
is configured): reads each collection from the disk cache, stopping at the
first read error, which its own `except` absorbs. -/
def initFallback (s : DaemonState) (cd : CacheDev) (now : Int) : DaemonState :=
  match cd.readFronters with
  | .err => s
  | .ok fronters =>
    let s := if fronters.isEmpty then s
      else seed_front_history { s with current_fronters := some fronters }
        fronters now
    match cd.readMembers with
    | .err => s
    | .ok mems =>
      let s := if mems.isEmpty then s else { s with members := mkEntityMap mems }
      match cd.readCustomFronts with
      | .err => s
      | .ok cfs =>
        if cfs.isEmpty then s else { s with custom_fronts := mkEntityMap cfs }

/-- Embeds `DaemonState.initialize`: seed from the API when available,
falling back to the disk cache when any step of the API branch raises. -/
def initializeModel (s : DaemonState) (api : Option ApiModel)
    (cache : Option CacheDev) (now : Int) : DaemonState × Option CacheDev :=
  match api with
  | some a =>
    let r := initApiFrontersStep s a cache now
    if r.2.2 then
      match r.2.1 with
      | some cd => (initFallback r.1 cd now, r.2.1)
      | none => (r.1, r.2.1)
    else (r.1, r.2.1)
  | none =>
    match cache with
    | some cd => (initFallback s cd now, cache)
    | none => (s, cache)

/-- Embeds `DaemonState.get_fronters`: `self.current_fronters or []`
together with the `fronters` timestamp. -/
def DaemonState.get_fronters (s : DaemonState) : JVal :=
  JVal.obj
    [("fronters", JVal.arr ((s.current_fronters).getD [])),
     ("timestamp", JVal.num ((dlook s.last_update_times "fronters").getD 0))]

/-- Embeds `DaemonState.get_members`. -/
def DaemonState.get_members (s : DaemonState) : JVal :=
  JVal.obj
    [("members", JVal.arr (s.members.map Prod.snd)),
     ("timestamp", JVal.num ((dlook s.last_update_times "members").getD 0))]

/-- Embeds `DaemonState.get_custom_fronts`. -/
def DaemonState.get_custom_fronts (s : DaemonState) : JVal :=
  JVal.obj
    [("custom_fronts", JVal.arr (s.custom_fronts.map Prod.snd)),
     ("timestamp", JVal.num ((dlook s.last_update_times "custom_fronts").getD 0))]

/-- Python `len(self.current_fronters) if self.current_fronters else 0`:
both `None` and the empty list are falsy. -/
def fronters_count (s : DaemonState) : Nat :=
  match s.current_fronters with
  | some l => if l.isEmpty then 0 else l.length
  | none => 0

/-- Embeds `DaemonState.get_status`. -/
def DaemonState.get_status (s : DaemonState) (now : Int) : JVal :=
  JVal.obj
    [("uptime", JVal.num (now - s.start_time)),
     ("update_count", JVal.num s.update_count),
     ("fronters_count", JVal.num (fronters_count s)),
     ("members_count", JVal.num s.members.length),
     ("custom_fronts_count", JVal.num s.custom_fronts.length),
     ("last_updates",
      JVal.obj (s.last_update_times.map (fun p => (p.1, JVal.num p.2))))]

/-! ## Local request server (`UnixSocketServer`, `daemon_protocol.py`) -/

/-- The fixed command vocabulary (`CommandType` in `daemon_protocol.py`). -/
inductive CommandType where
  | ping | status | fronting | members | customFronts | switch | reload
  deriving DecidableEq, Repr

/-- Python `CommandType(value)`: `none` models the `ValueError` raised on
a string outside the vocabulary. -/
def parseCommandType (s : String) : Option CommandType :=
  if s = "ping" then some .ping
  else if s = "status" then some .status
  else if s = "fronting" then some .fronting
  else if s = "members" then some .members
  else if s = "custom-fronts" then some .customFronts
  else if s = "switch" then some .switch
  else if s = "reload" then some .reload
  else none

/-- A request as `Request.from_dict` builds it, after the dataclass
`__post_init__` has run.  `request_id` is kept as a raw JSON value
because the Python code never validates non-null values. -/
structure Request where
  command : CommandType
  version : JVal
  args : JVal
  request_id : JVal
  deriving DecidableEq, Repr

/-- Embeds `Request.from_dict` together with the dataclass
`__post_init__` that construction triggers: `none` models a raised
exception (`KeyError` on a missing `command`, `ValueError` from
`CommandType`, `AttributeError`/`TypeError` on non-dict input).
`fresh` stands for the `uuid.uuid4()` evaluated as the `data.get`
default, used when the client omitted `request_id`; `fresh2` stands for
the second `uuid.uuid4()` that `__post_init__` draws when the stored
`request_id` is `None`, i.e. when the client sent an explicit JSON
`null`.  `__post_init__` likewise replaces a `None` `args` with the
empty dict. -/
def Request.from_dict (data : JVal) (fresh fresh2 : String) :
    Option Request :=
  match data with
  | .obj fields =>
    match dlook fields "command" with
    | some (JVal.str c) =>
      match parseCommandType c with
      | some cmd =>
        let args0 := jgetD fields "args" (JVal.obj [])
        let rid0 := jgetD fields "request_id" (JVal.str fresh)
        some
          { command := cmd
            version := jgetD fields "version" (JVal.num 1)
            args := if args0 = JVal.null then JVal.obj [] else args0
            request_id := if rid0 = JVal.null then JVal.str fresh2 else rid0 }
      | none => none
    | some _ => none
    | none => none
  | _ => none

/-- Response status tags. -/
inductive ResponseStatus where
  | ok | error
  deriving DecidableEq, Repr

/-- A daemon response (`Response` in `daemon_protocol.py`). -/
structure Response where
  status : ResponseStatus
  request_id : JVal
  version : Int
  data : Option JVal
  error : Option String
  deriving DecidableEq, Repr

/-- Embeds the `Response.success` classmethod. -/
def Response.success (request_id : JVal) (data : Option JVal) : Response :=
  { status := .ok, request_id := request_id, version := 1,
    data := data, error := none }

/-- Embeds the `Response.error` classmethod (renamed to avoid clashing
with the field projection). -/
def Response.mkError (request_id : JVal) (msg : String) : Response :=
  { status := .error, request_id := request_id, version := 1,
    data := none, error := some msg }

/-- Connection statistics of `WebSocketManager` as `get_status` reads
them; `ws_present` models `self.ws is not None`. -/
structure WSState where
  ws_present : Bool
  authenticated : Bool
  connect_time : Int
  last_ping_time : Int
  last_message_time : Int
  messages_received : Nat
  reconnect_count : Nat
  reconnect_delay : Nat
  deriving DecidableEq, Repr

/-- Embeds `WebSocketManager.get_status`. -/
def WSState.get_status (w : WSState) (now : Int) : JVal :=
  JVal.obj
    [("connected", JVal.bool (w.authenticated && w.ws_present)),
     ("authenticated", JVal.bool w.authenticated),
     ("uptime", JVal.num (if w.connect_time = 0 then 0 else now - w.connect_time)),
     ("last_ping", JVal.num w.last_ping_time),
     ("last_message", JVal.num w.last_message_time),
     ("messages_received", JVal.num w.messages_received),
     ("reconnect_count", JVal.num w.reconnect_count),
     ("reconnect_delay", JVal.num w.reconnect_delay)]

/-- Embeds `UnixSocketServer.handle_command`. -/
def handle_command (req : Request) (s : DaemonState) (w : WSState)
    (socket_path : String) (now : Int) : Response :=
  match req.command with
  | .ping =>
    Response.success req.request_id (some (JVal.obj [("pong", JVal.bool true)]))
  | .status =>
    Response.success req.request_id (some (JVal.obj
      [("websocket", w.get_status now), ("state", s.get_status now),
       ("socket_path", JVal.str socket_path)]))
  | .fronting => Response.success req.request_id (some s.get_fronters)
  | .members => Response.success req.request_id (some s.get_members)
  | .customFronts => Response.success req.request_id (some s.get_custom_fronts)
  | .switch => Response.mkError req.request_id "Switch command not yet implemented"
  | .reload => Response.mkError req.request_id "Reload command not yet implemented"

/-- Embeds the request-handling core of `UnixSocketServer.handle_client`:
`decoded = none` models a `json.loads` failure, a failing
`Request.from_dict` is the other arm of the same `except`, and both answer
with the fixed request id `"unknown"`. -/
def handle_client (decoded : Option JVal) (fresh fresh2 : String)
    (s : DaemonState) (w : WSState) (socket_path : String) (now : Int) :
    Response :=
  match decoded with
  | none => Response.mkError (JVal.str "unknown") "Invalid request"
  | some j =>
    match Request.from_dict j fresh fresh2 with
    | none => Response.mkError (JVal.str "unknown") "Invalid request"
    | some req => handle_command req s w socket_path now

/-! ## Realtime client (`WebSocketManager`) -/

/-- Constant from `daemon_protocol.py`. -/
def WS_RECONNECT_INITIAL_DELAY : Nat := 1

/-- Constant from `daemon_protocol.py`. -/
def WS_RECONNECT_MAX_DELAY : Nat := 60

/-- Constant from `daemon_protocol.py`. -/
def WS_RECONNECT_MULTIPLIER : Nat := 2

/-- How `json.loads(auth_response)` can turn out inside `connect`:
a decode error (caught locally), a valid non-dict JSON value (on which
`.get` raises `AttributeError`, escaping to the outer handler), or a
parsed JSON object. -/
inductive AuthParse where
  | decodeErr
  | nonObj
  | objVal (fields : List (String × JVal))
  deriving DecidableEq, Repr

/-- The authentication reply `connect` waits for. -/
inductive AuthReply where
  | timeout
  | reply (raw : String) (parsed : AuthParse)
  deriving DecidableEq, Repr

/-- Result of `connect`: its return value plus the `authenticated` and
`reconnect_delay` fields it leaves behind. -/
structure ConnectResult where
  success : Bool
  authenticated : Bool
  reconnect_delay : Nat
  deriving DecidableEq, Repr

/-- The string checks of `connect` applied to a raw auth reply, reached
when the JSON path did not return. -/
def rawChecks (raw : String) (authIn : Bool) (delayIn : Nat) : ConnectResult :=
  if strContains raw "Successfully authenticated" then
    { success := true, authenticated := true,
      reconnect_delay := WS_RECONNECT_INITIAL_DELAY }
  else if strContains raw "Authentication violation" then
    { success := false, authenticated := false, reconnect_delay := delayIn }
  else { success := false, authenticated := authIn, reconnect_delay := delayIn }

/-- Embeds the auth-reply handling of `WebSocketManager.connect` (lines
119-154 of `daemon.py`): JSON `msg` equality first, then raw substring
checks; a valid non-dict JSON reply raises `AttributeError`, which only
the outer `except Exception` catches, returning `False`. -/
def connectAuthDecision (authIn : Bool) (delayIn : Nat) (r : AuthReply) :
    ConnectResult :=
  match r with
  | .timeout =>
    { success := false, authenticated := authIn, reconnect_delay := delayIn }
  | .reply raw parsed =>
    match parsed with
    | .objVal fields =>
      if dlook fields "msg" = some (JVal.str "Successfully authenticated") then
        { success := true, authenticated := true,
          reconnect_delay := WS_RECONNECT_INITIAL_DELAY }
      else rawChecks raw authIn delayIn
    | .decodeErr => rawChecks raw authIn delayIn
    | .nonObj =>
      { success := false, authenticated := authIn, reconnect_delay := delayIn }

/-- The two events of `WebSocketManager.run` that mutate
`reconnect_delay`: a successful authentication inside `connect` resets it,
and the end of each reconnect cycle applies the exponential backoff. -/
inductive BackoffEvent where
  | authSuccess
  | reconnectBackoff
  deriving DecidableEq, Repr

/-- One mutation of `reconnect_delay`. -/
def backoffStep (d : Nat) : BackoffEvent → Nat
  | .authSuccess => WS_RECONNECT_INITIAL_DELAY
  | .reconnectBackoff => min (d * WS_RECONNECT_MULTIPLIER) WS_RECONNECT_MAX_DELAY

/-- The value of `reconnect_delay` after a sequence of mutations, starting
from the initial value set by the constructor. -/
def backoffRun (events : List BackoffEvent) : Nat :=
  events.foldl backoffStep WS_RECONNECT_INITIAL_DELAY

/-! ## Auxiliary fixtures for witnesses and counterexamples -/

/-- One `ApplyUpdate` call delivered through the WebSocket callback, with
its own timestamp and its own disk-cache write outcomes. -/
structure UpdateEvent where
  target : String
  op : String
  objId : String
  content : JVal
  now : Int
  outcomes : CacheOutcomes
  deriving DecidableEq, Repr

/-- Apply a sequence of `ApplyUpdate` calls in order (the single-writer
event stream). -/
def applyEvents (sc : DaemonState × CacheStore) (events : List UpdateEvent) :
    DaemonState × CacheStore :=
  events.foldl
    (fun sc e => handle_update sc.1 sc.2 e.outcomes e.now e.target e.op e.objId e.content)
    sc

/-- An empty disk cache. -/
def emptyCache : CacheStore :=
  { fronters := none, members := none, custom_fronts := none,
    memberEntries := [], customFrontEntries := [] }

/-- A disconnected `WSState` (fresh `WebSocketManager`). -/
def w0 : WSState :=
  { ws_present := false, authenticated := false, connect_time := 0,
    last_ping_time := 0, last_message_time := 0, messages_received := 0,
    reconnect_count := 0, reconnect_delay := 1 }

/-- A live front-history entry (used by witnesses). -/
def fobj1 : JVal :=
  JVal.obj [("member", JVal.str "Alice"), ("startTime", JVal.num 1000),
            ("live", JVal.bool true)]

/-- A second, later live front-history entry (used by witnesses). -/
def fobj2 : JVal :=
  JVal.obj [("member", JVal.str "Bob"), ("startTime", JVal.num 2000),
            ("live", JVal.bool true)]

/-- A concrete front-history event sequence: two inserts and a delete. -/
def c1events : List UpdateEvent :=
  [{ target := "frontHistory", op := "insert", objId := "f1",
     content := fobj1, now := 1, outcomes := allOk },
   { target := "frontHistory", op := "insert", objId := "f2",
     content := fobj2, now := 2, outcomes := allOk },
   { target := "frontHistory", op := "delete", objId := "f1",
     content := JVal.obj [], now := 3,
     outcomes := { allOk with oSetFronters := false } }]

/-- The seeded fronter entry of the seeding walkthrough (spec section 8). -/
def seedEntry : JVal :=
  JVal.obj [("id", JVal.str "f1"), ("startTime", JVal.num 1000),
            ("isLive", JVal.bool true)]

/-- A member entity returned by the REST collaborator. -/
def m1 : JVal :=
  JVal.obj [("id", JVal.str "m1"), ("name", JVal.str "Alice")]

/-- A REST API collaborator that successfully returns one fronter and one
member. -/
def apiC3 : ApiModel :=
  { fronters := .ok [fobj1], members := .ok [m1], custom_fronts := .ok [] }

/-- A broken disk cache: `set_fronters` raises and all reads raise. -/
def cacheC3fail : CacheDev :=
  { store := emptyCache, readFronters := .err, readMembers := .err,
    readCustomFronts := .err, oSetFronters := false, oSetMembers := true,
    oSetCustomFronts := true }

/-- The same disk cache with all writes succeeding. -/
def cacheC3ok : CacheDev :=
  { cacheC3fail with oSetFronters := true }

/-- A syntactically valid request whose command is outside the vocabulary
but which carries a recoverable `request_id`. -/
def c4input : JVal :=
  JVal.obj [("command", JVal.str "nope"), ("request_id", JVal.str "abc")]

/-- A reply that is valid JSON (the JSON string literal
`"Successfully authenticated"`) but not a JSON object; `json.loads`
returns a Python `str`, on which `.get` raises `AttributeError`. -/
def c5raw : String := "\"Successfully authenticated\""

/-! ## Lemmas and claim theorems -/

/- Basic association-list lemmas. -/

theorem dlook_map_set {α β : Type} [DecidableEq α]
    (m : List (α × β)) (k : α) (v : β) :
    m.any (fun p => decide (p.1 = k)) = true →
    dlook (m.map (fun p => if p.1 = k then (k, v) else p)) k = some v := by
  induction m with
  | nil => simp
  | cons p t ih =>
    intro hany
    by_cases hp : p.1 = k
    · simp [dlook, hp]
    · simp only [List.any_cons, Bool.or_eq_true, decide_eq_true_eq] at hany
      rcases hany with h | h
      · exact absurd h hp
      · simp only [List.map_cons, if_neg hp, dlook, if_neg hp]
        exact ih h

theorem dlook_append_single {α β : Type} [DecidableEq α]
    (m : List (α × β)) (k : α) (v : β) :
    dlook (m ++ [(k, v)]) k = (dlook m k).getD v := by
  induction m with
  | nil => simp [dlook]
  | cons p t ih =>
    by_cases hp : p.1 = k
    · simp [dlook, hp]
    · simpa [dlook, hp] using ih

theorem dlook_dset_self {α β : Type} [DecidableEq α]
    (m : List (α × β)) (k : α) (v : β) : dlook (dset m k v) k = some v := by
  unfold dset
  split
  · exact dlook_map_set m k v (by assumption)
  · rename_i hany
    rw [dlook_append_single]
    have : dlook m k = none := by
      induction m with
      | nil => rfl
      | cons p t ih =>
        simp only [List.any_cons, Bool.or_eq_true, decide_eq_true_eq,
          not_or] at hany
        simp only [dlook, if_neg hany.1]
        exact ih (by simpa using hany.2)
    simp [this]

theorem dlook_map_set_ne {α β : Type} [DecidableEq α]
    (m : List (α × β)) (k k' : α) (v : β) (h : k' ≠ k) :
    dlook (m.map (fun p => if p.1 = k' then (k', v) else p)) k = dlook m k := by
  induction m with
  | nil => rfl
  | cons p t ih =>
    by_cases hp : p.1 = k'
    · have : p.1 ≠ k := hp ▸ h
      simp only [List.map_cons, if_pos hp, dlook, if_neg h, if_neg this]
      exact ih
    · simp only [List.map_cons, if_neg hp, dlook]
      by_cases hpk : p.1 = k
      · simp [hpk]
      · simp only [if_neg hpk]
        exact ih

theorem dlook_append_ne {α β : Type} [DecidableEq α]
    (m : List (α × β)) (k k' : α) (v : β) (h : k' ≠ k) :
    dlook (m ++ [(k', v)]) k = dlook m k := by
  induction m with
  | nil => simp [dlook, if_neg h]
  | cons p t ih =>
    simp only [List.cons_append, dlook]
    by_cases hpk : p.1 = k
    · simp [hpk]
    · simp only [if_neg hpk]
      exact ih

theorem dlook_dset_ne {α β : Type} [DecidableEq α]
    (m : List (α × β)) (k k' : α) (v : β) (h : k' ≠ k) :
    dlook (dset m k' v) k = dlook m k := by
  unfold dset
  split
  · exact dlook_map_set_ne m k k' v h
  · exact dlook_append_ne m k k' v h

theorem dlook_ddel_self {α β : Type} [DecidableEq α]
    (m : List (α × β)) (k : α) : dlook (ddel m k) k = none := by
  induction m with
  | nil => rfl
  | cons p t ih =>
    unfold ddel at *
    by_cases hp : p.1 = k
    · simpa [List.filter, hp] using ih
    · simpa [List.filter, hp, dlook] using ih

/-- Setting the same key to the same value twice is the same as once. -/
theorem dset_dset_same {α β : Type} [DecidableEq α]
    (m : List (α × β)) (k : α) (v : β) :
    dset (dset m k v) k v = dset m k v := by
  unfold dset
  split
  · rename_i hany
    have hany2 : (m.map (fun p => if p.1 = k then (k, v) else p)).any
        (fun p => decide (p.1 = k)) = true := by
      simp only [List.any_eq_true, decide_eq_true_eq] at hany ⊢
      obtain ⟨p, hp, hpk⟩ := hany
      exact ⟨(k, v), List.mem_map.mpr ⟨p, hp, by simp [hpk]⟩, rfl⟩
    rw [if_pos hany2, List.map_map]
    apply List.map_congr_left
    intro p _
    by_cases hp : p.1 = k <;> simp [hp]
  · rename_i hany
    have hall : ∀ p ∈ m, p.1 ≠ k := by
      intro p hp
      simp only [List.any_eq_true, decide_eq_true_eq, not_exists,
        not_and] at hany
      exact fun hk => (hany p hp) hk
    have hany2 : ((m ++ [(k, v)]).any (fun p => decide (p.1 = k))) = true := by
      simp
    rw [if_pos hany2, List.map_append]
    have h1 : m.map (fun p => if p.1 = k then (k, v) else p) = m := by
      conv_rhs => rw [← List.map_id m]
      apply List.map_congr_left
      intro p hp
      simp [hall p hp]
    rw [h1]
    simp


/-- The recomputed fronters view is sorted by `startTime` descending. -/
theorem computeFronters_sorted (L : List (JVal × JVal)) :
    List.Sorted keyGE (computeFronters L) :=
  List.sorted_insertionSort keyGE _

/-- The recomputed fronters view is a permutation of the live ledger
values, in ledger order. -/
theorem computeFronters_perm (L : List (JVal × JVal)) :
    (computeFronters L).Perm
      ((L.map Prod.snd).filter
        (fun entry => truthy (vgetD entry "live" (JVal.bool false)))) :=
  List.perm_insertionSort keyGE _

/-- Every element of the recomputed view is a ledger value. -/
theorem computeFronters_mem (L : List (JVal × JVal)) (v : JVal)
    (h : v ∈ computeFronters L) : v ∈ L.map Prod.snd :=
  List.mem_of_mem_filter ((computeFronters_perm L).mem_iff.mp h)

/-- After a front-history update the stored view is exactly the recompute
of the new ledger. -/
theorem handle_update_fh_view (s : DaemonState) (c : CacheStore)
    (o : CacheOutcomes) (now : Int) (op objId : String) (content : JVal) :
    (handle_update s c o now "frontHistory" op objId content).1.current_fronters
      = some (computeFronters
          (handle_update s c o now "frontHistory" op objId content).1.front_history) :=
  rfl

/-- C6 (confirmed): in every reachable state of the reconnect loop the
delay lies between 1 and 60 seconds; it starts at 1, each backoff step
doubles it capped at 60, and each successful authentication resets it
to 1. -/
theorem c6_reconnect_delay_bounds :
    (∀ events : List BackoffEvent,
        1 ≤ backoffRun events ∧ backoffRun events ≤ 60) ∧
    backoffRun [] = 1 ∧
    (∀ d : Nat,
        backoffStep d BackoffEvent.reconnectBackoff = min (d * 2) 60 ∧
        backoffStep d BackoffEvent.authSuccess = 1) := by
  refine ⟨?_, rfl, fun d => ⟨rfl, rfl⟩⟩
  intro events
  suffices h : ∀ (es : List BackoffEvent) (d : Nat), 1 ≤ d → d ≤ 60 →
      1 ≤ es.foldl backoffStep d ∧ es.foldl backoffStep d ≤ 60 by
    exact h events 1 le_rfl (by omega)
  intro es
  induction es with
  | nil => exact fun d h1 h2 => ⟨h1, h2⟩
  | cons e t ih =>
    intro d h1 h2
    apply ih
    · cases e <;>
        simp only [backoffStep, WS_RECONNECT_INITIAL_DELAY,
          WS_RECONNECT_MULTIPLIER, WS_RECONNECT_MAX_DELAY] <;> omega
    · cases e <;>
        simp only [backoffStep, WS_RECONNECT_INITIAL_DELAY,
          WS_RECONNECT_MULTIPLIER, WS_RECONNECT_MAX_DELAY] <;> omega

/-- C9 (confirmed): a `ping` request is answered with status `ok` and a
`pong` payload, and the answer does not depend on the State Store, the
Realtime Client state, or the current time. -/
theorem c9_ping_always_ok (s : DaemonState) (w : WSState) (sp : String)
    (now : Int) (rid ver args : JVal) :
    handle_command ⟨CommandType.ping, ver, args, rid⟩ s w sp now =
      Response.success rid (some (JVal.obj [("pong", JVal.bool true)])) ∧
    (Response.success rid (some (JVal.obj [("pong", JVal.bool true)]))).status
      = ResponseStatus.ok ∧
    (∀ (s2 : DaemonState) (w2 : WSState) (now2 : Int),
      handle_command ⟨CommandType.ping, ver, args, rid⟩ s w sp now =
        handle_command ⟨CommandType.ping, ver, args, rid⟩ s2 w2 sp now2) :=
  ⟨rfl, rfl, fun _ _ _ => rfl⟩

/-- C10 (confirmed): a freshly constructed State Store answers every read
query with well-formed empty data: empty fronters, members and custom
fronts lists with timestamp 0, and a status with all counts and the
update counter at 0. -/
theorem c10_fresh_state_empty_reads (now now2 : Int) :
    (initState now).current_fronters = none ∧
    (initState now).get_fronters =
      JVal.obj [("fronters", JVal.arr []), ("timestamp", JVal.num 0)] ∧
    (initState now).get_members =
      JVal.obj [("members", JVal.arr []), ("timestamp", JVal.num 0)] ∧
    (initState now).get_custom_fronts =
      JVal.obj [("custom_fronts", JVal.arr []), ("timestamp", JVal.num 0)] ∧
    (initState now).get_status now2 =
      JVal.obj
        [("uptime", JVal.num (now2 - now)),
         ("update_count", JVal.num 0),
         ("fronters_count", JVal.num 0),
         ("members_count", JVal.num 0),
         ("custom_fronts_count", JVal.num 0),
         ("last_updates", JVal.obj
           [("fronters", JVal.num 0), ("members", JVal.num 0),
            ("custom_fronts", JVal.num 0), ("front_history", JVal.num 0)])] :=
  ⟨rfl, rfl, rfl, rfl, rfl⟩

/-- Any `handle_update` call increments the update counter by one. -/
theorem handle_update_count (s : DaemonState) (c : CacheStore)
    (o : CacheOutcomes) (now : Int) (target op objId : String)
    (content : JVal) :
    (handle_update s c o now target op objId content).1.update_count =
      s.update_count + 1 := by
  unfold handle_update handleFrontHistoryUpdate handleMemberUpdate
    handleCustomFrontUpdate
  dsimp only
  split_ifs <;> rfl

/-- A front-history insert or update replaces the ledger entry wholesale
and leaves the entity maps alone. -/
theorem handle_update_fh_upsert (s : DaemonState) (c : CacheStore)
    (o : CacheOutcomes) (now : Int) (op objId : String) (content : JVal)
    (hop : op ≠ "delete") :
    (handle_update s c o now "frontHistory" op objId content).1.front_history
      = dset s.front_history (JVal.str objId) content ∧
    (handle_update s c o now "frontHistory" op objId content).1.members
      = s.members ∧
    (handle_update s c o now "frontHistory" op objId content).1.custom_fronts
      = s.custom_fronts := by
  unfold handle_update handleFrontHistoryUpdate
  dsimp only
  rw [if_pos rfl, if_neg hop]
  exact ⟨rfl, rfl, rfl⟩

/-- A front-history delete removes the entry when present and leaves the
entity maps alone. -/
theorem handle_update_fh_delete (s : DaemonState) (c : CacheStore)
    (o : CacheOutcomes) (now : Int) (objId : String) (content : JVal) :
    (handle_update s c o now "frontHistory" "delete" objId content).1.front_history
      = (if (dlook s.front_history (JVal.str objId)).isSome then
          ddel s.front_history (JVal.str objId) else s.front_history) := by
  unfold handle_update handleFrontHistoryUpdate
  dsimp only
  rw [if_pos rfl, if_pos rfl]

/-- A members insert or update replaces the entity-map entry wholesale and
touches neither the ledger nor the derived view. -/
theorem handle_update_members_upsert (s : DaemonState) (c : CacheStore)
    (o : CacheOutcomes) (now : Int) (op objId : String) (content : JVal)
    (hop : op ≠ "delete") :
    (handle_update s c o now "members" op objId content).1.members
      = dset s.members (JVal.str objId) content ∧
    (handle_update s c o now "members" op objId content).1.front_history
      = s.front_history ∧
    (handle_update s c o now "members" op objId content).1.custom_fronts
      = s.custom_fronts ∧
    (handle_update s c o now "members" op objId content).1.current_fronters
      = s.current_fronters := by
  unfold handle_update handleMemberUpdate
  dsimp only
  rw [if_neg (by decide : ¬("members" = "frontHistory")), if_pos rfl,
    if_neg hop]
  exact ⟨rfl, rfl, rfl, rfl⟩

/-- A custom-fronts insert or update replaces the entity-map entry
wholesale and touches neither the ledger nor the derived view. -/
theorem handle_update_customfronts_upsert (s : DaemonState) (c : CacheStore)
    (o : CacheOutcomes) (now : Int) (op objId : String) (content : JVal)
    (hop : op ≠ "delete") :
    (handle_update s c o now "customFronts" op objId content).1.custom_fronts
      = dset s.custom_fronts (JVal.str objId) content ∧
    (handle_update s c o now "customFronts" op objId content).1.front_history
      = s.front_history ∧
    (handle_update s c o now "customFronts" op objId content).1.members
      = s.members ∧
    (handle_update s c o now "customFronts" op objId content).1.current_fronters
      = s.current_fronters := by
  unfold handle_update handleCustomFrontUpdate
  dsimp only
  rw [if_neg (by decide : ¬("customFronts" = "frontHistory")),
    if_neg (by decide : ¬("customFronts" = "members")), if_pos rfl,
    if_neg hop]
  exact ⟨rfl, rfl, rfl, rfl⟩

/-- An update for an unrecognized target changes none of the collections
or the derived view. -/
theorem handle_update_other_frame (s : DaemonState) (c : CacheStore)
    (o : CacheOutcomes) (now : Int) (target op objId : String)
    (content : JVal) (h1 : target ≠ "frontHistory") (h2 : target ≠ "members")
    (h3 : target ≠ "customFronts") :
    (handle_update s c o now target op objId content).1.front_history
      = s.front_history ∧
    (handle_update s c o now target op objId content).1.members = s.members ∧
    (handle_update s c o now target op objId content).1.custom_fronts
      = s.custom_fronts ∧
    (handle_update s c o now target op objId content).1.current_fronters
      = s.current_fronters ∧
    (handle_update s c o now target op objId content).1.last_update_times
      = dset s.last_update_times (collectionKey target) now := by
  unfold handle_update
  dsimp only
  rw [if_neg h1, if_neg h2, if_neg h3]
  exact ⟨rfl, rfl, rfl, rfl, rfl⟩

/-- C8 (confirmed): every `ApplyUpdate` call increments the update counter
by exactly one, for every target string; for a target outside
`frontHistory`/`members`/`customFronts` (e.g. `boardMessages`) the ledger,
both entity maps and the derived view are unchanged while a per-target
timestamp is still recorded (under the key the two `str.replace` calls
derive from the target, which is the target itself for such targets). -/
theorem c8_counter_increment_and_frame (s : DaemonState) (c : CacheStore)
    (o : CacheOutcomes) (now : Int) (target op objId : String)
    (content : JVal) :
    (handle_update s c o now target op objId content).1.update_count =
      s.update_count + 1 ∧
    (target ≠ "frontHistory" → target ≠ "members" → target ≠ "customFronts" →
      (handle_update s c o now target op objId content).1.front_history
        = s.front_history ∧
      (handle_update s c o now target op objId content).1.members
        = s.members ∧
      (handle_update s c o now target op objId content).1.custom_fronts
        = s.custom_fronts ∧
      (handle_update s c o now target op objId content).1.current_fronters
        = s.current_fronters ∧
      dlook (handle_update s c o now target op objId content).1.last_update_times
          (collectionKey target) = some now) := by
  refine ⟨handle_update_count s c o now target op objId content, ?_⟩
  intro h1 h2 h3
  obtain ⟨e1, e2, e3, e4, e5⟩ :=
    handle_update_other_frame s c o now target op objId content h1 h2 h3
  exact ⟨e1, e2, e3, e4, by rw [e5]; exact dlook_dset_self _ _ _⟩

/-- C8 witness: the theorem applied to a `boardMessages` update on a fresh
store. -/
theorem c8_witness :
    (handle_update (initState 0) emptyCache allOk 7 "boardMessages" "insert"
        "b1" (JVal.obj [])).1.update_count = (initState 0).update_count + 1 ∧
    ((handle_update (initState 0) emptyCache allOk 7 "boardMessages" "insert"
        "b1" (JVal.obj [])).1.front_history = (initState 0).front_history ∧
     (handle_update (initState 0) emptyCache allOk 7 "boardMessages" "insert"
        "b1" (JVal.obj [])).1.members = (initState 0).members ∧
     (handle_update (initState 0) emptyCache allOk 7 "boardMessages" "insert"
        "b1" (JVal.obj [])).1.custom_fronts = (initState 0).custom_fronts ∧
     (handle_update (initState 0) emptyCache allOk 7 "boardMessages" "insert"
        "b1" (JVal.obj [])).1.current_fronters = (initState 0).current_fronters ∧
     dlook (handle_update (initState 0) emptyCache allOk 7 "boardMessages"
        "insert" "b1" (JVal.obj [])).1.last_update_times
        (collectionKey "boardMessages") = some 7) :=
  have h := c8_counter_increment_and_frame (initState 0) emptyCache allOk 7
    "boardMessages" "insert" "b1" (JVal.obj [])
  ⟨h.1, h.2 (by decide) (by decide) (by decide)⟩

/-- C7 (confirmed): applying the same insert or update twice with
identical content leaves the ledger, both entity maps and the derived
current-fronters view equal to applying it once (the update counter and
timestamps, which the claim excludes, do advance). -/
theorem c7_idempotent_upsert (s : DaemonState) (c c2 : CacheStore)
    (o o2 : CacheOutcomes) (now now2 : Int) (target op objId : String)
    (content : JVal) (hop : op = "insert" ∨ op = "update") :
    ((handle_update (handle_update s c o now target op objId content).1
        c2 o2 now2 target op objId content).1.front_history
      = (handle_update s c o now target op objId content).1.front_history) ∧
    ((handle_update (handle_update s c o now target op objId content).1
        c2 o2 now2 target op objId content).1.members
      = (handle_update s c o now target op objId content).1.members) ∧
    ((handle_update (handle_update s c o now target op objId content).1
        c2 o2 now2 target op objId content).1.custom_fronts
      = (handle_update s c o now target op objId content).1.custom_fronts) ∧
    ((handle_update (handle_update s c o now target op objId content).1
        c2 o2 now2 target op objId content).1.current_fronters
      = (handle_update s c o now target op objId content).1.current_fronters) := by
  have hne : op ≠ "delete" := by
    rcases hop with h | h <;> subst h <;> decide
  set s1 := (handle_update s c o now target op objId content).1 with hs1
  by_cases h1 : target = "frontHistory"
  · subst h1
    obtain ⟨a1, a2, a3⟩ := handle_update_fh_upsert s c o now op objId content hne
    obtain ⟨b1, b2, b3⟩ := handle_update_fh_upsert s1 c2 o2 now2 op objId content hne
    have hfh : (handle_update s1 c2 o2 now2 "frontHistory" op objId
        content).1.front_history = s1.front_history := by
      rw [b1, hs1, a1, dset_dset_same]
    refine ⟨hfh, by rw [b2], by rw [b3], ?_⟩
    rw [handle_update_fh_view s1 c2 o2 now2 op objId content, hfh,
      handle_update_fh_view s c o now op objId content]
  · by_cases h2 : target = "members"
    · subst h2
      obtain ⟨a1, a2, a3, a4⟩ :=
        handle_update_members_upsert s c o now op objId content hne
      obtain ⟨b1, b2, b3, b4⟩ :=
        handle_update_members_upsert s1 c2 o2 now2 op objId content hne
      exact ⟨by rw [b2], by rw [b1, hs1, a1, dset_dset_same], by rw [b3],
        by rw [b4]⟩
    · by_cases h3 : target = "customFronts"
      · subst h3
        obtain ⟨a1, a2, a3, a4⟩ :=
          handle_update_customfronts_upsert s c o now op objId content hne
        obtain ⟨b1, b2, b3, b4⟩ :=
          handle_update_customfronts_upsert s1 c2 o2 now2 op objId content hne
        exact ⟨by rw [b2], by rw [b3], by rw [b1, hs1, a1, dset_dset_same],
          by rw [b4]⟩
      · obtain ⟨a1, a2, a3, a4, _⟩ :=
          handle_update_other_frame s c o now target op objId content h1 h2 h3
        obtain ⟨b1, b2, b3, b4, _⟩ :=
          handle_update_other_frame s1 c2 o2 now2 target op objId content h1 h2 h3
        exact ⟨by rw [b1], by rw [b2], by rw [b3], by rw [b4]⟩

/-- C7 witness: the theorem applied to a concrete members insert. -/
theorem c7_witness :
    ((handle_update (handle_update (initState 0) emptyCache allOk 1 "members"
        "insert" "m1" m1).1 emptyCache allOk 2 "members" "insert" "m1"
        m1).1.front_history
      = (handle_update (initState 0) emptyCache allOk 1 "members" "insert"
          "m1" m1).1.front_history) ∧
    ((handle_update (handle_update (initState 0) emptyCache allOk 1 "members"
        "insert" "m1" m1).1 emptyCache allOk 2 "members" "insert" "m1"
        m1).1.members
      = (handle_update (initState 0) emptyCache allOk 1 "members" "insert"
          "m1" m1).1.members) ∧
    ((handle_update (handle_update (initState 0) emptyCache allOk 1 "members"
        "insert" "m1" m1).1 emptyCache allOk 2 "members" "insert" "m1"
        m1).1.custom_fronts
      = (handle_update (initState 0) emptyCache allOk 1 "members" "insert"
          "m1" m1).1.custom_fronts) ∧
    ((handle_update (handle_update (initState 0) emptyCache allOk 1 "members"
        "insert" "m1" m1).1 emptyCache allOk 2 "members" "insert" "m1"
        m1).1.current_fronters
      = (handle_update (initState 0) emptyCache allOk 1 "members" "insert"
          "m1" m1).1.current_fronters) :=
  c7_idempotent_upsert (initState 0) emptyCache emptyCache allOk allOk 1 2
    "members" "insert" "m1" m1 (Or.inl rfl)

/-- C3 amended, positive part (every `ApplyUpdate`): the in-memory state
after a mutation does not depend on the disk-cache write outcomes — a
failing cache write is absorbed by its `try/except` after the in-memory
mutation has been made. -/
theorem c3_apply_cache_failure_absorbed (s : DaemonState) (c : CacheStore)
    (o : CacheOutcomes) (now : Int) (target op objId : String)
    (content : JVal) :
    (handle_update s c o now target op objId content).1 =
      (handle_update s c allOk now target op objId content).1 := by
  unfold handle_update handleFrontHistoryUpdate handleMemberUpdate
    handleCustomFrontUpdate
  dsimp only
  split_ifs <;> rfl

/-- C3 counterexample (the startup seed): with the REST API returning one
fronter and one member, a failing `cache.set_fronters` during `initialize`
raises out of the API branch, so the member list is never loaded — the
resulting in-memory state differs from the state had the write succeeded,
contradicting the claim for the seed path. -/
theorem c3_counterexample_seed :
    (initializeModel (initState 0) (some apiC3) (some cacheC3fail) 5).1.members
      = [] ∧
    (initializeModel (initState 0) (some apiC3) (some cacheC3ok) 5).1.members
      = [(JVal.str "m1", m1)] ∧
    (initializeModel (initState 0) (some apiC3) (some cacheC3fail) 5).1 ≠
      (initializeModel (initState 0) (some apiC3) (some cacheC3ok) 5).1 := by
  refine ⟨rfl, rfl, ?_⟩
  decide

/-- Every branch of `handle_command` echoes the correlation id of the
request. -/
theorem handle_command_request_id (req : Request) (s : DaemonState)
    (w : WSState) (sp : String) (now : Int) :
    (handle_command req s w sp now).request_id = req.request_id := by
  rcases req with ⟨cmd, ver, args, rid⟩
  cases cmd <;> rfl

/-- C4 amended (the claim as the code actually behaves): a well-formed
request carrying a non-null `request_id` gets it echoed back; a
well-formed request whose `request_id` is absent, or is an explicit JSON
`null`, is answered with a freshly generated server uuid (the `data.get`
default, respectively the `__post_init__` draw); any message that fails
decoding or validation is answered with the fixed placeholder id
`"unknown"`, even when the `request_id` of the client was recoverable. -/
theorem c4_request_id_echo (fresh fresh2 : String) (s : DaemonState)
    (w : WSState) (sp : String) (now : Int) :
    (handle_client none fresh fresh2 s w sp now).request_id
      = JVal.str "unknown" ∧
    (∀ j : JVal, Request.from_dict j fresh fresh2 = none →
      (handle_client (some j) fresh fresh2 s w sp now).request_id
        = JVal.str "unknown") ∧
    (∀ (fields : List (String × JVal)) (req : Request) (rid : JVal),
      Request.from_dict (JVal.obj fields) fresh fresh2 = some req →
      dlook fields "request_id" = some rid → rid ≠ JVal.null →
      (handle_client (some (JVal.obj fields)) fresh fresh2 s w sp
          now).request_id = rid) ∧
    (∀ (fields : List (String × JVal)) (req : Request),
      Request.from_dict (JVal.obj fields) fresh fresh2 = some req →
      dlook fields "request_id" = some JVal.null →
      (handle_client (some (JVal.obj fields)) fresh fresh2 s w sp
          now).request_id = JVal.str fresh2) ∧
    (∀ (fields : List (String × JVal)) (req : Request),
      Request.from_dict (JVal.obj fields) fresh fresh2 = some req →
      dlook fields "request_id" = none →
      (handle_client (some (JVal.obj fields)) fresh fresh2 s w sp
          now).request_id = JVal.str fresh) := by
  have hrid : ∀ (fields : List (String × JVal)) (req : Request),
      Request.from_dict (JVal.obj fields) fresh fresh2 = some req →
      req.request_id =
        (if jgetD fields "request_id" (JVal.str fresh) = JVal.null then
          JVal.str fresh2
         else jgetD fields "request_id" (JVal.str fresh)) := by
    intro fields req hreq
    simp only [Request.from_dict] at hreq
    split at hreq
    · split at hreq
      · injection hreq with h
        subst h
        rfl
      · exact Option.noConfusion hreq
    · exact Option.noConfusion hreq
    · exact Option.noConfusion hreq
  refine ⟨rfl, ?_, ?_, ?_, ?_⟩
  · intro j hj
    simp only [handle_client, hj]
    rfl
  · intro fields req rid hreq hrid2 hnn
    simp only [handle_client, hreq, handle_command_request_id]
    rw [hrid fields req hreq]
    simp only [jgetD, hrid2, Option.getD_some]
    rw [if_neg hnn]
  · intro fields req hreq hrid2
    simp only [handle_client, hreq, handle_command_request_id]
    rw [hrid fields req hreq]
    simp only [jgetD, hrid2, Option.getD_some]
    simp
  · intro fields req hreq hrid2
    simp only [handle_client, hreq, handle_command_request_id]
    rw [hrid fields req hreq]
    simp only [jgetD, hrid2, Option.getD_none]
    simp

/-- C4 counterexample: a syntactically valid JSON request whose command is
outside the vocabulary carries the recoverable `request_id` `"abc"`, yet
the response carries the fixed server placeholder `"unknown"` — the
response does not echo the id the client sent. -/
theorem c4_counterexample_unknown_id :
    (handle_client (some c4input) "fresh-uuid" "fresh-uuid2" (initState 0)
        w0 "/s" 0).request_id = JVal.str "unknown" ∧
    dlook [("command", JVal.str "nope"), ("request_id", JVal.str "abc")]
      "request_id" = some (JVal.str "abc") ∧
    JVal.str "unknown" ≠ JVal.str "abc" := by
  refine ⟨rfl, rfl, by decide⟩

/-- C4 witness: the amended theorem applied to a concrete well-formed
`ping` request carrying `request_id` `"r1"` (echoed), and to one carrying
an explicit JSON `null` (answered with the fresh `__post_init__` uuid,
modelled as `"f1"`). -/
theorem c4_witness :
    (handle_client (some (JVal.obj [("command", JVal.str "ping"),
        ("request_id", JVal.str "r1")])) "f0" "f1" (initState 0) w0 "/s"
        0).request_id = JVal.str "r1" ∧
    (handle_client (some (JVal.obj [("command", JVal.str "ping"),
        ("request_id", JVal.null)])) "f0" "f1" (initState 0) w0 "/s"
        0).request_id = JVal.str "f1" :=
  ⟨(c4_request_id_echo "f0" "f1" (initState 0) w0 "/s" 0).2.2.1
    [("command", JVal.str "ping"), ("request_id", JVal.str "r1")]
    ⟨CommandType.ping, JVal.num 1, JVal.obj [], JVal.str "r1"⟩
    (JVal.str "r1") (by decide) (by decide) (by decide),
   (c4_request_id_echo "f0" "f1" (initState 0) w0 "/s" 0).2.2.2.1
    [("command", JVal.str "ping"), ("request_id", JVal.null)]
    ⟨CommandType.ping, JVal.num 1, JVal.obj [], JVal.str "f1"⟩
    (by decide) (by decide)⟩

/-- C5 amended (the claim as the code actually behaves): the auth reply
yields success exactly when it parses as a JSON object whose `msg` equals
"Successfully authenticated", or when it is not a valid non-object JSON
value and contains that literal substring; success always marks the
connection authenticated; a reply that reaches the string checks and
contains "Authentication violation" fails with `authenticated = false`;
a timeout fails.  (A valid non-object JSON reply makes `.get` raise
`AttributeError`, so it fails even when it contains the success
substring — see the counterexample.) -/
theorem c5_auth_decision (authIn : Bool) (delayIn : Nat) :
    (∀ (raw : String) (parsed : AuthParse),
      ((connectAuthDecision authIn delayIn (AuthReply.reply raw parsed)).success
          = true ↔
        ((∃ fields, parsed = AuthParse.objVal fields ∧
            dlook fields "msg" = some (JVal.str "Successfully authenticated")) ∨
         (parsed ≠ AuthParse.nonObj ∧
           strContains raw "Successfully authenticated" = true)))) ∧
    (∀ (raw : String) (parsed : AuthParse),
      (connectAuthDecision authIn delayIn (AuthReply.reply raw parsed)).success
          = true →
      (connectAuthDecision authIn delayIn
          (AuthReply.reply raw parsed)).authenticated = true) ∧
    (∀ (raw : String) (parsed : AuthParse),
      parsed ≠ AuthParse.nonObj →
      (∀ fields, parsed = AuthParse.objVal fields →
        dlook fields "msg" ≠ some (JVal.str "Successfully authenticated")) →
      strContains raw "Successfully authenticated" = false →
      strContains raw "Authentication violation" = true →
      connectAuthDecision authIn delayIn (AuthReply.reply raw parsed) =
        { success := false, authenticated := false,
          reconnect_delay := delayIn }) ∧
    ((connectAuthDecision authIn delayIn AuthReply.timeout).success = false) := by
  refine ⟨?_, ?_, ?_, rfl⟩
  · intro raw parsed
    cases parsed with
    | decodeErr =>
      simp only [connectAuthDecision, rawChecks]
      split_ifs with hs hv <;> simp_all
    | nonObj =>
      simp only [connectAuthDecision]
      simp
    | objVal fields =>
      simp only [connectAuthDecision, rawChecks]
      split_ifs with hm hs hv <;> simp_all
  · intro raw parsed
    cases parsed with
    | decodeErr =>
      simp only [connectAuthDecision, rawChecks]
      split_ifs with hs hv <;> simp_all
    | nonObj =>
      simp only [connectAuthDecision]
      simp
    | objVal fields =>
      simp only [connectAuthDecision, rawChecks]
      split_ifs with hm hs hv <;> simp_all
  · intro raw parsed hno hmsg hs hv
    cases parsed with
    | decodeErr =>
      simp only [connectAuthDecision, rawChecks, hs, hv]
      simp
    | nonObj => exact absurd rfl hno
    | objVal fields =>
      simp only [connectAuthDecision, rawChecks]
      rw [if_neg (hmsg fields rfl), if_neg (by simp [hs]), if_pos (by simp [hv])]

/-- C5 counterexample: the reply that is the JSON string literal
"Successfully authenticated" (quotes included) contains the success
substring, yet `connect` fails on it: `json.loads` returns a Python
`str`, `.get` raises `AttributeError`, and the outer handler returns
`False` without marking the connection authenticated. -/
theorem c5_counterexample_nonobj_reply :
    strContains c5raw "Successfully authenticated" = true ∧
    (connectAuthDecision false 1
        (AuthReply.reply c5raw AuthParse.nonObj)).success = false ∧
    (connectAuthDecision false 1
        (AuthReply.reply c5raw AuthParse.nonObj)).authenticated = false := by
  refine ⟨by decide, rfl, rfl⟩

/-- C5 witness: the amended theorem applied to the literal reply
"Authentication violation" (which fails JSON decoding). -/
theorem c5_witness :
    connectAuthDecision false 7
        (AuthReply.reply "Authentication violation" AuthParse.decodeErr) =
      { success := false, authenticated := false, reconnect_delay := 7 } :=
  (c5_auth_decision false 7).2.2.1 "Authentication violation"
    AuthParse.decodeErr (by decide)
    (fun fields h => AuthParse.noConfusion h) (by decide) (by decide)

/-- A nonempty sequence of front-history events always leaves the stored
view equal to the recompute of the resulting ledger: the handler
recomputes it from the ledger on the last call (and on every earlier
one). -/
theorem applyEvents_fh_view (sc : DaemonState × CacheStore)
    (events : List UpdateEvent) (hne : events ≠ [])
    (htgt : ∀ e ∈ events, e.target = "frontHistory") :
    (applyEvents sc events).1.current_fronters =
      some (computeFronters (applyEvents sc events).1.front_history) := by
  induction events generalizing sc with
  | nil => exact absurd rfl hne
  | cons e t ih =>
    have he : e.target = "frontHistory" := htgt e (List.mem_cons_self e t)
    cases t with
    | nil =>
      simp only [applyEvents, List.foldl_cons, List.foldl_nil]
      rw [he]
      exact handle_update_fh_view sc.1 sc.2 e.outcomes e.now e.op e.objId
        e.content
    | cons e2 t2 =>
      have hstep : applyEvents sc (e :: e2 :: t2) =
          applyEvents (handle_update sc.1 sc.2 e.outcomes e.now e.target e.op
            e.objId e.content) (e2 :: t2) := rfl
      rw [hstep]
      exact ih _ (by simp) (fun x hx => htgt x (List.mem_cons_of_mem e hx))

/-- C1 (confirmed): after any nonempty sequence of `ApplyUpdate` calls
with target `frontHistory` (insert, update and delete mixed freely), the
stored current-fronters view equals the live-filtered ledger values sorted
by `startTime` descending, and is sorted and a permutation of exactly the
live ledger entries.  The starting state is arbitrary, so this covers the
state after every prefix of a longer sequence.  The well-formedness
hypotheses restrict to payloads on which the Python filter and sort raise
no exception (JSON objects with numeric `startTime`), where the embedding
is faithful. -/
theorem c1_view_is_recompute_of_ledger (sc : DaemonState × CacheStore)
    (events : List UpdateEvent) (hne : events ≠ [])
    (htgt : ∀ e ∈ events, e.target = "frontHistory")
    (hops : ∀ e ∈ events,
      e.op = "insert" ∨ e.op = "update" ∨ e.op = "delete")
    (hwfE : ∀ e ∈ events, wfContent e.content = true)
    (hwfS : ∀ kv ∈ sc.1.front_history, wfContent kv.2 = true) :
    (applyEvents sc events).1.current_fronters =
      some (computeFronters (applyEvents sc events).1.front_history) ∧
    List.Sorted keyGE
      (computeFronters (applyEvents sc events).1.front_history) ∧
    (computeFronters (applyEvents sc events).1.front_history).Perm
      (((applyEvents sc events).1.front_history.map Prod.snd).filter
        (fun entry => truthy (vgetD entry "live" (JVal.bool false)))) :=
  ⟨applyEvents_fh_view sc events hne htgt, computeFronters_sorted _,
   computeFronters_perm _⟩

/-- C1 witness: the invariant theorem applied to a concrete
insert/insert/delete sequence from the empty store. -/
theorem c1_witness :
    (applyEvents (initState 0, emptyCache) c1events).1.current_fronters =
      some (computeFronters
        (applyEvents (initState 0, emptyCache) c1events).1.front_history) ∧
    List.Sorted keyGE (computeFronters
      (applyEvents (initState 0, emptyCache) c1events).1.front_history) ∧
    (computeFronters
      (applyEvents (initState 0, emptyCache) c1events).1.front_history).Perm
      (((applyEvents (initState 0, emptyCache) c1events).1.front_history.map
          Prod.snd).filter
        (fun entry => truthy (vgetD entry "live" (JVal.bool false)))) :=
  c1_view_is_recompute_of_ledger (initState 0, emptyCache) c1events
    (by decide) (by decide) (by decide) (by decide) (by decide)

/-- A seed step for an entry with a different id preserves lookups. -/
theorem seedStep_preserve (m : List (JVal × JVal)) (e : JVal) (k : JVal)
    (h : entryId e ≠ k) : dlook (seedStep m e) k = dlook m k := by
  unfold seedStep
  dsimp only
  split_ifs with ht
  · exact dlook_dset_ne m k (entryId e) _ h
  · rfl

/-- Seeding entries whose ids all differ from `k` preserves the lookup at
`k`. -/
theorem seed_foldl_preserve (l : List JVal) (m : List (JVal × JVal))
    (k : JVal) (h : ∀ e ∈ l, entryId e ≠ k) :
    dlook (l.foldl seedStep m) k = dlook m k := by
  induction l generalizing m with
  | nil => rfl
  | cons e t ih =>
    rw [List.foldl_cons,
      ih _ (fun x hx => h x (List.mem_cons_of_mem e hx)),
      seedStep_preserve m e k (h e (List.mem_cons_self e t))]

/-- After seeding a list of entries with truthy, pairwise distinct ids,
each entry is found in the ledger under its id, storing its `content`
field (or the entry itself when absent). -/
theorem seed_foldl_lookup (l : List JVal) (m : List (JVal × JVal))
    (entry : JVal) (hmem : entry ∈ l)
    (hids : ∀ e ∈ l, truthy (entryId e) = true)
    (hnodup : (l.map entryId).Nodup) :
    dlook (l.foldl seedStep m) (entryId entry)
      = some (vgetD entry "content" entry) := by
  induction l generalizing m with
  | nil => cases hmem
  | cons e t ih =>
    rw [List.map_cons, List.nodup_cons] at hnodup
    rw [List.foldl_cons]
    rcases List.mem_cons.mp hmem with h | h
    · subst h
      have hnot : ∀ x ∈ t, entryId x ≠ entryId entry := by
        intro x hx hxe
        exact hnodup.1 (hxe ▸ List.mem_map_of_mem entryId hx)
      rw [seed_foldl_preserve t _ _ hnot]
      unfold seedStep
      dsimp only
      rw [if_pos (hids entry (List.mem_cons_self entry t))]
      exact dlook_dset_self _ _ _
    · exact ih _ h (fun x hx => hids x (List.mem_cons_of_mem e hx)) hnodup.2

/-- Reduction of `initialize` when only the REST API is configured and it
returns a nonempty fronters list, no members and no custom fronts. -/
theorem initialize_api_only (fronters : List JVal) (now : Int)
    (hne : fronters ≠ []) :
    (initializeModel (initState 0)
        (some { fronters := CollabResult.ok fronters,
                members := CollabResult.ok [],
                custom_fronts := CollabResult.ok [] }) none now).1
      = seed_front_history
          { initState 0 with
            current_fronters := some fronters,
            last_update_times :=
              dset (initState 0).last_update_times "fronters" now }
          fronters now := by
  have h : fronters.isEmpty = false := by
    cases fronters with
    | nil => exact absurd rfl hne
    | cons a t => rfl
  simp only [initializeModel, initApiFrontersStep, initApiMembersStep,
    initApiCustomStep, h]
  rfl

/-- C2 (confirmed): seeding inserts every entry that has a (truthy) id
into the ledger keyed by that id, `GetCurrentFronters` then returns
exactly the seeded entries, and a subsequent
`ApplyUpdate(frontHistory, delete, id, \x7b\x7d)` for a seeded id removes it
from the ledger and leaves the recomputed view without it — seeded entries
merge with later incremental events instead of forming a shadow list.
The hypotheses require the seeded entries to be JSON objects with truthy,
pairwise-distinct ids and exception-free contents, the domain on which the
embedding is faithful. -/
theorem c2_seed_merges (fronters : List JVal) (now now2 : Int)
    (c : CacheStore) (o : CacheOutcomes) (S : DaemonState)
    (hS : S = (initializeModel (initState 0)
        (some { fronters := CollabResult.ok fronters,
                members := CollabResult.ok [],
                custom_fronts := CollabResult.ok [] }) none now).1)
    (hne : fronters ≠ [])
    (hobj : ∀ entry ∈ fronters, isObj entry = true)
    (hids : ∀ entry ∈ fronters, truthy (entryId entry) = true)
    (hnodup : (fronters.map entryId).Nodup)
    (hwf : ∀ entry ∈ fronters,
      wfContent (vgetD entry "content" entry) = true) :
    S.get_fronters = JVal.obj
      [("fronters", JVal.arr fronters), ("timestamp", JVal.num now)] ∧
    (∀ entry ∈ fronters,
      dlook S.front_history (entryId entry)
        = some (vgetD entry "content" entry)) ∧
    (∀ entry ∈ fronters, ∀ did : String, entryId entry = JVal.str did →
      dlook (handle_update S c o now2 "frontHistory" "delete" did
          (JVal.obj [])).1.front_history (JVal.str did) = none ∧
      (handle_update S c o now2 "frontHistory" "delete" did
          (JVal.obj [])).1.current_fronters
        = some (computeFronters (handle_update S c o now2 "frontHistory"
            "delete" did (JVal.obj [])).1.front_history) ∧
      (∀ v ∈ computeFronters (handle_update S c o now2 "frontHistory"
          "delete" did (JVal.obj [])).1.front_history,
        v ∈ (handle_update S c o now2 "frontHistory" "delete" did
          (JVal.obj [])).1.front_history.map Prod.snd)) := by
  have hfh : S.front_history = fronters.foldl seedStep [] := by
    rw [hS, initialize_api_only fronters now hne]
    rfl
  have hlook : ∀ entry ∈ fronters,
      dlook S.front_history (entryId entry)
        = some (vgetD entry "content" entry) := by
    intro entry hmem
    rw [hfh]
    exact seed_foldl_lookup fronters [] entry hmem hids hnodup
  refine ⟨?_, hlook, ?_⟩
  · rw [hS, initialize_api_only fronters now hne]
    unfold DaemonState.get_fronters seed_front_history
    dsimp only
    rw [dlook_dset_ne _ "fronters" "front_history" now (by decide),
      dlook_dset_self]
    rfl
  · intro entry hmem did hdid
    have hsome : (dlook S.front_history (JVal.str did)).isSome = true := by
      rw [← hdid, hlook entry hmem]
      rfl
    have hdel := handle_update_fh_delete S c o now2 did (JVal.obj [])
    rw [if_pos hsome] at hdel
    refine ⟨?_, handle_update_fh_view S c o now2 "delete" did (JVal.obj []),
      fun v hv => computeFronters_mem _ v hv⟩
    rw [hdel]
    exact dlook_ddel_self S.front_history (JVal.str did)

/-- C2 witness: the theorem applied to the single seeded live entry of the
spec walkthrough, then deleting it. -/
theorem c2_witness :
    ((initializeModel (initState 0)
        (some { fronters := CollabResult.ok [seedEntry],
                members := CollabResult.ok [],
                custom_fronts := CollabResult.ok [] }) none 10).1).get_fronters
      = JVal.obj
        [("fronters", JVal.arr [seedEntry]), ("timestamp", JVal.num 10)] ∧
    (∀ entry ∈ [seedEntry],
      dlook ((initializeModel (initState 0)
        (some { fronters := CollabResult.ok [seedEntry],
                members := CollabResult.ok [],
                custom_fronts := CollabResult.ok [] }) none 10).1).front_history
          (entryId entry) = some (vgetD entry "content" entry)) ∧
    (∀ entry ∈ [seedEntry], ∀ did : String, entryId entry = JVal.str did →
      dlook (handle_update ((initializeModel (initState 0)
          (some { fronters := CollabResult.ok [seedEntry],
                  members := CollabResult.ok [],
                  custom_fronts := CollabResult.ok [] }) none 10).1)
          emptyCache allOk 11 "frontHistory" "delete" did
          (JVal.obj [])).1.front_history (JVal.str did) = none ∧
      (handle_update ((initializeModel (initState 0)
          (some { fronters := CollabResult.ok [seedEntry],
                  members := CollabResult.ok [],
                  custom_fronts := CollabResult.ok [] }) none 10).1)
          emptyCache allOk 11 "frontHistory" "delete" did
          (JVal.obj [])).1.current_fronters
        = some (computeFronters (handle_update ((initializeModel (initState 0)
            (some { fronters := CollabResult.ok [seedEntry],
                    members := CollabResult.ok [],
                    custom_fronts := CollabResult.ok [] }) none 10).1)
            emptyCache allOk 11 "frontHistory" "delete" did
            (JVal.obj [])).1.front_history) ∧
      (∀ v ∈ computeFronters (handle_update ((initializeModel (initState 0)
          (some { fronters := CollabResult.ok [seedEntry],
                  members := CollabResult.ok [],
                  custom_fronts := CollabResult.ok [] }) none 10).1)
          emptyCache allOk 11 "frontHistory" "delete" did
          (JVal.obj [])).1.front_history,
        v ∈ (handle_update ((initializeModel (initState 0)
          (some { fronters := CollabResult.ok [seedEntry],
                  members := CollabResult.ok [],
                  custom_fronts := CollabResult.ok [] }) none 10).1)
          emptyCache allOk 11 "frontHistory" "delete" did
          (JVal.obj [])).1.front_history.map Prod.snd)) :=
  c2_seed_merges [seedEntry] 10 11 emptyCache allOk _ rfl (by decide)
    (by decide) (by decide) (by decide) (by decide)

end SimplyPlural
